import Mathlib

/-!
Shallow embedding of the bindgen-output parsing core of this repository:
`engine/src/conversion/parse/parse_bindgen.rs` and
`engine/src/conversion/parse/bindgen_annotations.rs`.
Parts of the repository outside those files (qualified-name type, config,
error reporter, foreign-mod converter, utility generation) are modelled from
the specification, each marked in its doc comment.
-/

namespace Autocxx

/-- A namespace path: an ordered sequence of segment names, empty at the root
(`types::Namespace`, modelled from the spec: ordered segments, immutable). -/
structure Namespace where
  segments : List String
deriving DecidableEq

/-- `Namespace::new()`: the root namespace. -/
def Namespace.new : Namespace := ⟨[]⟩

/-- `Namespace::push`: extend a namespace path with one segment. -/
def Namespace.push (ns : Namespace) (s : String) : Namespace := ⟨ns.segments ++ [s]⟩

/-- `Namespace::is_empty`: whether this is the root namespace. -/
def Namespace.isEmpty (ns : Namespace) : Bool := ns.segments.isEmpty

/-- Modelled from the spec: the parent of a namespace (used to resolve the
path of a renaming re-export relative to the parent of the current
namespace); the root is its own parent. -/
def Namespace.parent (ns : Namespace) : Namespace := ⟨ns.segments.dropLast⟩

/-- A qualified name: namespace path plus local identifier
(`types::QualifiedName`, modelled from the spec: structural equality). -/
structure QualifiedName where
  ns : Namespace
  id : String
deriving DecidableEq

/-- Modelled from the spec: `QualifiedName::to_cpp_name`, the join key used
for blocklist and must-generate checks — the segments joined by the
scope separator. -/
def QualifiedName.to_cpp_name (q : QualifiedName) : String :=
  String.intercalate ("::") (q.ns.segments ++ [q.id])

/-- A leaf token of a proc-macro token stream (abstraction of the token
trees the source manipulates via syn). -/
inductive Tok where
  | ident (s : String)
  | litStr (s : String)
  | litNat (n : Nat)
  | punct (c : Char)
deriving DecidableEq

/-- A token at attribute-argument level: a leaf, or one parenthesized group
(the only nesting depth the source ever inspects). -/
inductive Token where
  | flat (t : Tok)
  | group (inner : List Tok)
deriving DecidableEq

/-- A declaration attribute: its path segments and, when parenthesized
arguments are present, their token stream (abstraction of `syn::Attribute`). -/
structure Attr where
  path : List String
  args : Option (List Token)
deriving DecidableEq

/-- `syn::Path::is_ident`: a single-segment path equal to the given name. -/
def Attr.is_ident (a : Attr) (s : String) : Bool := a.path = [s]

/-- Last segment of an attribute path, as used by
`AutocxxBindgenAnnotations::new` (`attr.path.segments.last()`). -/
def Attr.lastSeg (a : Attr) : Option String := a.path.getLast?

/-- Modelled from syn: parsing a token stream as an `Ident` succeeds exactly
on a single identifier token. -/
def parseIdentTokens : List Tok → Option String
  | [.ident s] => some s
  | _ => none

/-- Modelled from syn: parsing a token stream as a `LitStr` succeeds exactly
on a single string-literal token. -/
def parseLitStrTokens : List Tok → Option String
  | [.litStr s] => some s
  | _ => none

/-- C++ visibility of an item (`api::CppVisibility`). -/
inductive CppVisibility where
  | Public
  | Protected
  | Private
deriving DecidableEq

/-- Memory layout descriptor (`api::Layout`; modelled from the spec: a
structured size/alignment descriptor parsed from a layout tag payload). -/
structure Layout where
  size : Nat
  align : Nat
deriving DecidableEq

/-- Modelled from the spec: parsing a layout tag payload into a layout
descriptor; anything else is a parse failure. -/
def parseLayoutTokens : List Tok → Option Layout
  | [.litNat s, .litNat a] => some ⟨s, a⟩
  | _ => none

/-- Outcome of running a piece of code that may panic (Rust `assert!`,
`unwrap()`), as distinct from returning an error value. -/
inductive Panics (α : Type) where
  | panicked
  | value (a : α)
deriving DecidableEq

namespace AutocxxBindgenAnnotations

/-- One parsed `bindgen_annotation`: a tag name and an optional parenthesized
payload token stream (`AutocxxBindgenAttribute`). -/
structure ABAttr where
  tagName : String
  body : Option (List Tok)
deriving DecidableEq

/-- `AutocxxBindgenAttribute::is_ident`. -/
def ABAttr.is_ident (a : ABAttr) (s : String) : Bool := a.tagName = s

/-- `<AutocxxBindgenAttribute as Parse>::parse` composed with the outer
argument parser: an identifier, optionally followed by exactly one
parenthesized group whose contents become the body; any leftover input or
other shape is a parse error (`none`). -/
def parseBindgenAttributeTokens : List Token → Option ABAttr
  | [.flat (.ident n)] => some ⟨n, none⟩
  | [.flat (.ident n), .group g] => some ⟨n, some g⟩
  | _ => none

/-- `AutocxxBindgenAnnotations::new`: keep those attributes whose path's last
segment is the annotation marker and whose arguments parse as an
annotation; attributes that fail to parse are silently dropped (`r.ok()`). -/
def new (attrs : List Attr) : List ABAttr :=
  attrs.filterMap (fun attr =>
    if attr.lastSeg = some ("bindgen_annotation") then
      match attr.args with
      | none => none
      | some ts => parseBindgenAttributeTokens ts
    else none)

/-- `AutocxxBindgenAnnotations::has_attr`. -/
def has_attr (anns : List ABAttr) (s : String) : Bool :=
  anns.any (fun a => a.is_ident s)

/-- `AutocxxBindgenAnnotations::get_cpp_visibility`. -/
def get_cpp_visibility (anns : List ABAttr) : CppVisibility :=
  if has_attr anns ("visibility_private") then .Private
  else if has_attr anns ("visibility_protected") then .Protected
  else .Public

/-- `AutocxxBindgenAnnotations::parse_if_present`, generic over the payload
parser: find the first annotation with the given tag name and parse its
payload with `parse_args().unwrap()` — a missing body or a failed parse is
a panic, not an error value. -/
def parse_if_present (p : List Tok → Option α) (anns : List ABAttr) (tag : String) :
    Panics (Option α) :=
  match anns.find? (fun a => a.is_ident tag) with
  | none => .value none
  | some a =>
    match a.body with
    | none => .panicked
    | some ts =>
      match p ts with
      | none => .panicked
      | some v => .value (some v)

/-- `AutocxxBindgenAnnotations::string_if_present`. -/
def string_if_present (anns : List ABAttr) (tag : String) : Panics (Option String) :=
  parse_if_present parseLitStrTokens anns tag

/-- `AutocxxBindgenAnnotations::get_layout`. -/
def get_layout (anns : List ABAttr) : Panics (Option Layout) :=
  parse_if_present parseLayoutTokens anns ("layout")

/-- `AutocxxBindgenAnnotations::get_original_name`. -/
def get_original_name (anns : List ABAttr) : Panics (Option String) :=
  string_if_present anns ("original_name")

/-- `AutocxxBindgenAnnotations::get_bindgen_special_member_annotation`. -/
def get_special_member (anns : List ABAttr) : Panics (Option String) :=
  string_if_present anns ("special_member")

/-- The loop body of `get_reference_parameters_and_return`: scan every
annotation, setting the return-by-reference flag on a `ret_type_reference`
tag and inserting the payload identifier of each `arg_type_reference` tag;
an `arg_type_reference` without a body panics (`body.unwrap()`), one whose
body is not an identifier is silently skipped (`if let Ok`). -/
def getRefsLoop : List ABAttr → Finset String → Bool → Panics (Finset String × Bool)
  | [], ps, r => .value (ps, r)
  | a :: rest, ps, r =>
    if a.is_ident ("ret_type_reference") then getRefsLoop rest ps true
    else if a.is_ident ("arg_type_reference") then
      match a.body with
      | none => .panicked
      | some ts =>
        match parseIdentTokens ts with
        | some x => getRefsLoop rest (insert x ps) r
        | none => getRefsLoop rest ps r
    else getRefsLoop rest ps r

/-- `AutocxxBindgenAnnotations::get_reference_parameters_and_return`. -/
def get_reference_parameters_and_return (anns : List ABAttr) :
    Panics (Finset String × Bool) :=
  getRefsLoop anns ∅ false

end AutocxxBindgenAnnotations

end Autocxx

namespace Autocxx

/-- A conversion error (`ConvertError`, restricted to the variants this
parsing core produces). -/
inductive ConvertError where
  | UnexpectedOuterItem
  | UnexpectedItemInMod
  | InvalidIdent (id : String)
  | InfinitelyRecursiveTypedef (q : QualifiedName)
  | UnexpectedUseStatement (seg : Option String)
  | DidNotGenerateAnything (directive : String)
  | UnusedTemplateParam
deriving DecidableEq

/-- The declaration identity an error is attributed to (`ErrorContext`). -/
inductive ErrorContext where
  | item (id : String)
deriving DecidableEq

/-- `ConvertErrorWithContext`: an error plus the declaration it is
attributed to, when known. -/
structure ConvertErrorWithContext where
  err : ConvertError
  ctx : Option ErrorContext
deriving DecidableEq

/-- Modelled from the spec: the configuration consumed by this core
(`autocxx_parser::IncludeCppConfig` interface): exclusion patterns,
must-generate names, the utility-suppression flag, configured subclasses
(subclass name, superclass name), externally-implemented functions and
opaque types, plus the identifier-validity predicate supplied by an
external collaborator (`validate_ident_ok_for_cxx`). -/
structure IncludeCppConfig where
  blocklist : List String
  mustGenerate : List String
  excludeUtilitiesFlag : Bool
  subclasses : List (String × String)
  externRustFunIds : List String
  rustTypeIds : List String
  validIdent : String → Bool

/-- `IncludeCppConfig::is_on_blocklist`. -/
def IncludeCppConfig.is_on_blocklist (cfg : IncludeCppConfig) (s : String) : Bool :=
  cfg.blocklist.contains s

/-- `IncludeCppConfig::is_rust_type` (by final identifier). -/
def IncludeCppConfig.is_rust_type (cfg : IncludeCppConfig) (id : String) : Bool :=
  cfg.rustTypeIds.contains id

/-- `IncludeCppConfig::exclude_utilities`. -/
def IncludeCppConfig.exclude_utilities (cfg : IncludeCppConfig) : Bool :=
  cfg.excludeUtilitiesFlag

/-- `IncludeCppConfig::must_generate_list`. -/
def IncludeCppConfig.must_generate_list (cfg : IncludeCppConfig) : List String :=
  cfg.mustGenerate

/-- `api::ApiName`: a qualified name plus the original native name when the
identifier was mangled. -/
structure ApiName where
  name : QualifiedName
  cppName : Option String
deriving DecidableEq

/-- Parsing an attribute argument stream as a `LitStr`
(`a.parse_args::<LitStr>()`): exactly one string-literal token. -/
def parseLitStrArgs : List Token → Option String
  | [.flat (.litStr s)] => some s
  | _ => none

/-- Modelled from the spec: parsing an attribute argument stream as a
`Layout` descriptor (size and alignment); any other shape fails. -/
def parseLayoutArgs : List Token → Option Layout
  | [.flat (.litNat s), .flat (.litNat a)] => some ⟨s, a⟩
  | _ => none

/-- `a.parse_args::<LitStr>()` on a whole attribute: an attribute without
parenthesized arguments is a parse error. -/
def attr_parse_args_litStr (a : Attr) : Option String :=
  match a.args with
  | none => none
  | some ts => parseLitStrArgs ts

/-- `get_bindgen_original_name_annotation`: first attribute named
`bindgen_original_name` whose argument parses as a string literal;
attributes whose payload fails to parse are skipped. -/
def get_bindgen_original_name_annotation (attrs : List Attr) : Option String :=
  (attrs.filterMap (fun a =>
    if a.is_ident ("bindgen_original_name") then attr_parse_args_litStr a else none)).head?

/-- `parse_bindgen::has_attr`. -/
def has_attr (attrs : List Attr) (s : String) : Bool :=
  attrs.any (fun a => a.is_ident s)

/-- `parse_bindgen::get_cpp_visibility` (the attribute-level decoder). -/
def get_cpp_visibility (attrs : List Attr) : CppVisibility :=
  if has_attr attrs ("bindgen_visibility_private") then .Private
  else if has_attr attrs ("bindgen_visibility_protected") then .Protected
  else .Public

/-- `parse_bindgen::parse_layout`: the first `bindgen_layout` attribute is
parsed with `parse_args().unwrap()` — missing arguments or a failed parse
is a panic. -/
def parse_layout (attrs : List Attr) : Panics (Option Layout) :=
  match attrs.find? (fun a => a.is_ident ("bindgen_layout")) with
  | none => .value none
  | some a =>
    match a.args with
    | none => .panicked
    | some ts =>
      match parseLayoutArgs ts with
      | none => .panicked
      | some l => .value (some l)

/-- `api_name`: build an `ApiName` from the namespace, identifier and any
original-name annotation. -/
def api_name (ns : Namespace) (id : String) (attrs : List Attr) : ApiName :=
  ⟨⟨ns, id⟩, get_bindgen_original_name_annotation attrs⟩

/-- `api_name_qualified`: validate the identifier through the external
predicate (carried in the config model), then build the name; failure is
attributed to the declaration. -/
def api_name_qualified (cfg : IncludeCppConfig) (ns : Namespace) (id : String)
    (attrs : List Attr) : Except ConvertErrorWithContext ApiName :=
  if cfg.validIdent id then .ok (api_name ns id attrs)
  else .error ⟨.InvalidIdent id, some (.item id)⟩

/-- The kind payload of a Typedef entry (`api::TypedefKind`). -/
inductive TypedefKind where
  | useAlias (segs : List String) (oldId : String) (newId : String)
  | typeAlias (id : String)
deriving DecidableEq

/-- One field of an aggregate declaration (`syn::Field`: possibly unnamed). -/
structure StructField where
  ident : Option String
deriving DecidableEq

/-- An API entry (`api::Api` in its unanalyzed form), one variant per
declaration kind, each owning one name. -/
inductive UnanalyzedApi where
  | struct (name : ApiName) (vis : CppVisibility) (layout : Option Layout)
      (fields : List StructField)
  | forwardDeclaration (name : ApiName)
  | enum (name : ApiName)
  | typedef (name : ApiName) (kind : TypedefKind) (oldTyname : Option QualifiedName)
  | const (name : ApiName)
  | rustType (name : ApiName)
  | rustFn (name : ApiName)
  | subclass (name : ApiName) (superclass : QualifiedName)
  | utility (name : ApiName)
  | fnEntry (name : ApiName) (payload : Nat)
deriving DecidableEq

/-- `Api::name_info`: the `ApiName` of any entry. -/
def UnanalyzedApi.nameInfo : UnanalyzedApi → ApiName
  | .struct n _ _ _ => n
  | .forwardDeclaration n => n
  | .enum n => n
  | .typedef n _ _ => n
  | .const n => n
  | .rustType n => n
  | .rustFn n => n
  | .subclass n _ => n
  | .utility n => n
  | .fnEntry n _ => n

/-- `Api::name`: the qualified name of any entry. -/
def UnanalyzedApi.name (a : UnanalyzedApi) : QualifiedName := a.nameInfo.name

/-- A recorded per-declaration diagnostic. Modelled from the spec: a failure
converting one declaration is caught, attributed, recorded, and the walk
continues (`report_any_error`). -/
structure Diag where
  ns : Namespace
  e : ConvertErrorWithContext
deriving DecidableEq

/-- The walker's running result state: the API entry collection and the
recorded diagnostics. -/
structure PState where
  apis : List UnanalyzedApi
  diags : List Diag
deriving DecidableEq

/-- Modelled from the spec: the per-namespace foreign declaration group
accumulator (`ParseForeignMod`), receiving externally-linked function
declarations and implementation-block notes, finalized at namespace exit.
Payloads are opaque. -/
structure ParseForeignMod where
  ns : Namespace
  pendingFns : List Nat
  implNotes : List Nat
deriving DecidableEq

/-- `ParseForeignMod::new`. -/
def ParseForeignMod.new (ns : Namespace) : ParseForeignMod := ⟨ns, [], []⟩

/-- `ParseForeignMod::convert_foreign_mod_items` (modelled from the spec:
declarations are accumulated for finalization). -/
def ParseForeignMod.convert_foreign_mod_items (mc : ParseForeignMod) (fitems : List Nat) :
    ParseForeignMod :=
  { mc with pendingFns := mc.pendingFns ++ fitems }

/-- `ParseForeignMod::convert_impl_items` (modelled from the spec: never
produces an entry; only noted to distinguish static methods later). -/
def ParseForeignMod.convert_impl_items (mc : ParseForeignMod) (p : Nat) : ParseForeignMod :=
  { mc with implNotes := mc.implNotes ++ [p] }

/-- `ParseForeignMod::finished` (modelled from the spec: on namespace exit
the accumulated declarations materialize as function entries appended to
the running collection). -/
def ParseForeignMod.finished (mc : ParseForeignMod) (apis : List UnanalyzedApi) :
    List UnanalyzedApi :=
  apis ++ mc.pendingFns.map (fun p =>
    UnanalyzedApi.fnEntry ⟨⟨mc.ns, String.append ("fn") (Nat.repr p)⟩, none⟩ p)

/-- A `use` tree (`syn::UseTree`, the shapes the source distinguishes). -/
inductive UseTree where
  | path (seg : String) (rest : UseTree)
  | name (id : String)
  | rename (oldId : String) (newId : String)
  | glob
  | group
deriving DecidableEq

/-- A declaration item (`syn::Item`, the shapes the source distinguishes;
`other` stands for every remaining item kind). -/
inductive Item where
  | foreignMod (fitems : List Nat)
  | struct (id : String) (fields : List StructField) (attrs : List Attr)
  | enum (id : String) (attrs : List Attr)
  | impl (payload : Nat)
  | mod (id : String) (content : Option (List Item))
  | use (tree : UseTree) (attrs : List Attr)
  | const (id : String) (attrs : List Attr)
  | type (id : String) (attrs : List Attr)
  | other

/-- `ParseBindgen::spot_forward_declaration`: some named field equals the
forward-declaration sentinel. -/
def spot_forward_declaration (fields : List StructField) : Bool :=
  (fields.filterMap (fun f => f.ident)).any (fun id => id == "_unused")

/-- Modelled from the spec: `QualifiedName::from_type_path` applied to the
re-export path with its `self::super` prefix stripped — the remaining
path is interpreted relative to the parent of the current namespace. -/
def resolve_old_tyname (ns : Namespace) (segs : List String) (oldId : String) :
    QualifiedName :=
  ⟨⟨ns.parent.segments ++ segs⟩, oldId⟩

/-- The `Item::Use` loop of `ParseBindgen::parse_item`: walk the use-tree
accumulating path segments; a bare name equal to the root sentinel is
discarded; a rename must be prefixed `self::super` (asserted — anything
else panics), resolves its old name, rejects a self-referential alias and
otherwise emits a Typedef; any other shape is an error naming the last
segment observed. -/
def parse_use_loop (ns : Namespace) (attrs : List Attr) (st : PState) :
    UseTree → List String → Panics (PState × Except ConvertErrorWithContext Unit)
  | .path seg rest, segs => parse_use_loop ns attrs st rest (segs ++ [seg])
  | .name id, segs =>
    if id = "root" then .value (st, .ok ())
    else .value (st, .error ⟨.UnexpectedUseStatement segs.getLast?, none⟩)
  | .rename oldId newId, segs =>
    match segs with
    | s1 :: s2 :: restSegs =>
      if s1 = "self" then
        if s2 = "super" then
          let new_tyname : QualifiedName := ⟨ns, newId⟩
          let old_tyname := resolve_old_tyname ns restSegs oldId
          if new_tyname = old_tyname then
            .value (st, .error ⟨.InfinitelyRecursiveTypedef new_tyname, some (.item newId)⟩)
          else
            .value ({ st with apis := st.apis ++
              [UnanalyzedApi.typedef (api_name ns newId attrs)
                (.useAlias restSegs oldId newId) (some old_tyname)] }, .ok ())
        else .panicked
      else .panicked
    | _ => .panicked
  | .glob, segs => .value (st, .error ⟨.UnexpectedUseStatement segs.getLast?, none⟩)
  | .group, segs => .value (st, .error ⟨.UnexpectedUseStatement segs.getLast?, none⟩)

/-- `ParseBindgen::find_items_in_root`: scan the top-level items; a group
named other than the root sentinel fails the assertion (panic); the first
content-bearing root group's contents are returned; a non-group item is an
`UnexpectedOuterItem` error; exhausting the list yields an empty item
list. -/
def find_items_in_root : List Item → Panics (Except ConvertError (List Item))
  | [] => .value (.ok [])
  | .mod id content :: rest =>
    if id = "root" then
      match content with
      | some items => .value (.ok items)
      | none => find_items_in_root rest
    else .panicked
  | _ :: _ => .value (.error .UnexpectedOuterItem)

/-- Modelled from the spec: `generate_utilities` injects a fixed bundle of
utility entries into the collection. -/
def generate_utilities (apis : List UnanalyzedApi) : List UnanalyzedApi :=
  apis ++ [UnanalyzedApi.utility ⟨⟨Namespace.new, "make_string"⟩, none⟩]

/-- `ParseBindgen::add_apis_from_config`: subclasses, externally-implemented
functions and opaque types from the config become Subclass, RustFn and
RustType entries. -/
def add_apis_from_config (cfg : IncludeCppConfig) (apis : List UnanalyzedApi) :
    List UnanalyzedApi :=
  apis
    ++ cfg.subclasses.map (fun sc =>
        UnanalyzedApi.subclass ⟨⟨Namespace.new, sc.1⟩, none⟩ ⟨Namespace.new, sc.2⟩)
    ++ cfg.externRustFunIds.map (fun id => UnanalyzedApi.rustFn ⟨⟨Namespace.new, id⟩, none⟩)
    ++ cfg.rustTypeIds.map (fun id => UnanalyzedApi.rustType ⟨⟨Namespace.new, id⟩, none⟩)

/-- The qualified names of all entries, as compared by the directive
validator and the blocklist. -/
def apiNames (apis : List UnanalyzedApi) : List String :=
  apis.map (fun a => a.name.to_cpp_name)

/-- `ParseBindgen::confirm_all_generate_directives_obeyed`: the first
must-generate directive whose name is absent from the collection is a
whole-pass error. -/
def confirm_all_generate_directives_obeyed (cfg : IncludeCppConfig)
    (apis : List UnanalyzedApi) : Except ConvertError Unit :=
  match cfg.must_generate_list.find? (fun q => !((apiNames apis).contains q)) with
  | some q => .error (.DidNotGenerateAnything q)
  | none => .ok ()

/-- The `Item::Struct` arm of `ParseBindgen::parse_item`: skip
dispatch-table types, validate and qualify the name, build either no
candidate (a configured opaque rust type in the root namespace), a
ForwardDeclaration (sentinel field spotted) or a Struct (decoding
visibility and layout — the latter may panic), then drop the candidate if
its qualified name is on the blocklist, else push it. -/
def parse_struct_item (cfg : IncludeCppConfig) (ns : Namespace) (st : PState)
    (mc : ParseForeignMod) (id : String) (fields : List StructField)
    (attrs : List Attr) :
    Panics (PState × ParseForeignMod × Except ConvertErrorWithContext Unit) :=
  if id.endsWith ("__bindgen_vtable") then .value (st, mc, .ok ())
  else
    match api_name_qualified cfg ns id attrs with
    | .error e => .value (st, mc, .error e)
    | .ok name =>
      match (if ns.isEmpty && cfg.is_rust_type id then
               Panics.value (Option.none (α := UnanalyzedApi))
             else if spot_forward_declaration fields then
               Panics.value (some (UnanalyzedApi.forwardDeclaration name))
             else
               match parse_layout attrs with
               | .panicked => Panics.panicked
               | .value lay =>
                 Panics.value
                   (some (UnanalyzedApi.struct name (get_cpp_visibility attrs) lay fields))) with
      | .panicked => .panicked
      | .value none => .value (st, mc, .ok ())
      | .value (some api) =>
        if cfg.is_on_blocklist api.name.to_cpp_name then .value (st, mc, .ok ())
        else .value ({ st with apis := st.apis ++ [api] }, mc, .ok ())

/-- The `Item::Enum` arm of `ParseBindgen::parse_item`: validate and qualify
the name, then push the Enum entry unless its qualified name is on the
blocklist. -/
def parse_enum_item (cfg : IncludeCppConfig) (ns : Namespace) (st : PState)
    (mc : ParseForeignMod) (id : String) (attrs : List Attr) :
    Panics (PState × ParseForeignMod × Except ConvertErrorWithContext Unit) :=
  match api_name_qualified cfg ns id attrs with
  | .error e => .value (st, mc, .error e)
  | .ok name =>
    let api := UnanalyzedApi.enum name
    if cfg.is_on_blocklist api.name.to_cpp_name then .value (st, mc, .ok ())
    else .value ({ st with apis := st.apis ++ [api] }, mc, .ok ())

/-- The `Item::Use` arm of `ParseBindgen::parse_item`. -/
def parse_use_item (ns : Namespace) (attrs : List Attr) (st : PState)
    (mc : ParseForeignMod) (tree : UseTree) :
    Panics (PState × ParseForeignMod × Except ConvertErrorWithContext Unit) :=
  match parse_use_loop ns attrs st tree [] with
  | .panicked => .panicked
  | .value (st2, res) => .value (st2, mc, res)

mutual

/-- `ParseBindgen::parse_item`: dispatch one declaration, possibly pushing
one entry onto the running collection, forwarding to the foreign-mod
accumulator, recursing into nested namespaces, or failing with a
per-declaration error. -/
def parse_item (cfg : IncludeCppConfig) (ns : Namespace) (st : PState)
    (mc : ParseForeignMod) (item : Item) :
    Panics (PState × ParseForeignMod × Except ConvertErrorWithContext Unit) :=
  match item with
  | .foreignMod fitems =>
    .value (st, mc.convert_foreign_mod_items fitems, .ok ())
  | .struct id fields attrs => parse_struct_item cfg ns st mc id fields attrs
  | .enum id attrs => parse_enum_item cfg ns st mc id attrs
  | .impl p => .value (st, mc.convert_impl_items p, .ok ())
  | .mod id content =>
    match content with
    | some items =>
      match parse_mod_items cfg (ns.push id) st items with
      | .panicked => .panicked
      | .value st2 => .value (st2, mc, .ok ())
    | none => .value (st, mc, .ok ())
  | .use tree attrs => parse_use_item ns attrs st mc tree
  | .const id attrs =>
    .value ({ st with apis := st.apis ++ [UnanalyzedApi.const (api_name ns id attrs)] },
      mc, .ok ())
  | .type id attrs =>
    .value ({ st with apis := st.apis ++
      [UnanalyzedApi.typedef (api_name ns id attrs) (.typeAlias id) none] }, mc, .ok ())
  | .other => .value (st, mc, .error ⟨.UnexpectedItemInMod, none⟩)
termination_by sizeOf item

/-- `ParseBindgen::parse_mod_items`: process one namespace's declarations
under error isolation with a fresh foreign-mod accumulator, finalizing the
accumulator on exit. -/
def parse_mod_items (cfg : IncludeCppConfig) (ns : Namespace) (st : PState)
    (items : List Item) : Panics PState :=
  match parse_mod_items_go cfg ns st (ParseForeignMod.new ns) items with
  | .panicked => .panicked
  | .value (st2, mc2) => .value { st2 with apis := mc2.finished st2.apis }
termination_by sizeOf items + 1

/-- The declaration loop of `parse_mod_items`: each failure is caught and
recorded as a diagnostic (`report_any_error`, modelled from the spec) and
the walk continues with the next declaration. -/
def parse_mod_items_go (cfg : IncludeCppConfig) (ns : Namespace) (st : PState)
    (mc : ParseForeignMod) (items : List Item) : Panics (PState × ParseForeignMod) :=
  match items with
  | [] => .value (st, mc)
  | i :: rest =>
    match parse_item cfg ns st mc i with
    | .panicked => .panicked
    | .value (st2, mc2, .ok _) => parse_mod_items_go cfg ns st2 mc2 rest
    | .value (st2, mc2, .error e) =>
      parse_mod_items_go cfg ns { st2 with diags := st2.diags ++ [⟨ns, e⟩] } mc2 rest
termination_by sizeOf items

end

/-- `ParseBindgen::parse_items`: unwrap the synthetic root, inject utility
and config-sourced entries, walk the namespace tree from the root, then
validate the must-generate directives; the result is the entry collection
plus the recorded diagnostics. -/
def parse_items (cfg : IncludeCppConfig) (items : List Item) :
    Panics (Except ConvertError (List UnanalyzedApi × List Diag)) :=
  match find_items_in_root items with
  | .panicked => .panicked
  | .value (.error e) => .value (.error e)
  | .value (.ok inner) =>
    let apis0 : List UnanalyzedApi :=
      if !cfg.exclude_utilities then generate_utilities [] else []
    let apis1 := add_apis_from_config cfg apis0
    match parse_mod_items cfg Namespace.new ⟨apis1, []⟩ inner with
    | .panicked => .panicked
    | .value st =>
      match confirm_all_generate_directives_obeyed cfg st.apis with
      | .error e => .value (.error e)
      | .ok _ => .value (.ok (st.apis, st.diags))

end Autocxx

namespace Autocxx

namespace AutocxxBindgenAnnotations

/-- Spec-side encoding of a visibility fact as its metadata tag set. -/
def encode_visibility : CppVisibility → List ABAttr
  | .Private => [⟨("visibility_private"), none⟩]
  | .Protected => [⟨("visibility_protected"), none⟩]
  | .Public => []

/-- Spec-side encoding of reference facts: one `arg_type_reference` tag per
reference parameter (the set given by an enumeration) and a
`ret_type_reference` tag when the return value is by reference. -/
def encode_ref_facts (l : List String) (r : Bool) : List ABAttr :=
  l.map (fun x => ⟨("arg_type_reference"), some [.ident x]⟩)
    ++ (if r then [⟨("ret_type_reference"), none⟩] else [])

/-- Spec-side encoding of a whole fact bundle as a metadata tag set. -/
def encode_bundle (v : CppVisibility) (l : List String) (r : Bool) : List ABAttr :=
  encode_visibility v ++ encode_ref_facts l r

theorem getRefsLoop_unrelated (a : ABAttr) (rest : List ABAttr) (ps : Finset String)
    (r : Bool) (h1 : a.tagName ≠ ("ret_type_reference"))
    (h2 : a.tagName ≠ ("arg_type_reference")) :
    getRefsLoop (a :: rest) ps r = getRefsLoop rest ps r := by
  simp [getRefsLoop, ABAttr.is_ident, h1, h2]

theorem getRefsLoop_args (l : List String) (rest : List ABAttr) (ps : Finset String)
    (r : Bool) :
    getRefsLoop (l.map (fun x => ⟨("arg_type_reference"), some [.ident x]⟩) ++ rest) ps r
      = getRefsLoop rest (l.foldl (fun s x => insert x s) ps) r := by
  induction l generalizing ps with
  | nil => simp
  | cons x xs ih =>
    simp only [List.map_cons, List.cons_append, List.foldl_cons]
    rw [getRefsLoop]
    simp [ABAttr.is_ident, parseIdentTokens, ih]

theorem foldl_insert_eq (l : List String) (acc : Finset String) :
    l.foldl (fun s x => insert x s) acc = acc ∪ l.toFinset := by
  induction l generalizing acc with
  | nil => simp
  | cons x xs ih =>
    simp only [List.foldl_cons, List.toFinset_cons, ih]
    rw [Finset.union_insert, Finset.insert_union]

end AutocxxBindgenAnnotations

end Autocxx

namespace Autocxx

namespace AutocxxBindgenAnnotations

theorem getRefsLoop_enc (l : List String) (r : Bool) (ps : Finset String) :
    getRefsLoop (encode_ref_facts l r) ps false = .value (ps ∪ l.toFinset, r) := by
  rw [encode_ref_facts, getRefsLoop_args, foldl_insert_eq]
  cases r
  · simp [getRefsLoop]
  · simp [getRefsLoop, ABAttr.is_ident]

/-- C8: Round-trip — a metadata tag set built from a fact bundle (a
visibility value, a finite set of reference-parameter identifiers given by
any enumeration, a return-by-reference flag), decoded with
`get_cpp_visibility` and `get_reference_parameters_and_return`, yields
exactly the original bundle. -/
theorem C8_bundle_roundtrip (v : CppVisibility) (l : List String) (r : Bool) :
    get_cpp_visibility (encode_bundle v l r) = v ∧
    get_reference_parameters_and_return (encode_bundle v l r) = .value (l.toFinset, r) := by
  constructor
  · cases v <;> cases r <;>
      simp [encode_bundle, encode_visibility, encode_ref_facts, get_cpp_visibility,
        has_attr, ABAttr.is_ident]
  · rw [get_reference_parameters_and_return]
    cases v
    · rw [encode_bundle, encode_visibility, List.nil_append, getRefsLoop_enc,
        Finset.empty_union]
    · rw [encode_bundle, encode_visibility, List.singleton_append,
        getRefsLoop_unrelated _ _ _ _ (by decide) (by decide), getRefsLoop_enc,
        Finset.empty_union]
    · rw [encode_bundle, encode_visibility, List.singleton_append,
        getRefsLoop_unrelated _ _ _ _ (by decide) (by decide), getRefsLoop_enc,
        Finset.empty_union]

end AutocxxBindgenAnnotations

end Autocxx

namespace Autocxx

namespace AutocxxBindgenAnnotations

/-- C6 counterexample: an `arg_type_reference` tag (a recognized tag) whose
payload is not parsable as an identifier is silently ignored by
`get_reference_parameters_and_return` — decoding succeeds with the facts
unaffected, contradicting the claim that an unparsable payload of a
recognized tag is a fatal decode error. -/
theorem C6_counterexample :
    get_reference_parameters_and_return [⟨("arg_type_reference"), some [.litStr ("x")]⟩]
      = .value (∅, false) := by
  decide

/-- C6 (amended): unknown tag names are ignored with no effect on any
decoded fact; but a recognized scalar tag (layout, original-name) with an
unparsable payload aborts by panic without naming the declaration, and an
argument-is-reference tag with an unparsable payload is silently ignored
rather than being an error. -/
theorem C6_amended (name : String) (body : Option (List Tok)) (rest : List ABAttr)
    (ps : Finset String) (r : Bool)
    (h1 : name ≠ ("ret_type_reference")) (h2 : name ≠ ("arg_type_reference"))
    (h3 : name ≠ ("visibility_private")) (h4 : name ≠ ("visibility_protected"))
    (h5 : name ≠ ("layout")) :
    getRefsLoop (⟨name, body⟩ :: rest) ps r = getRefsLoop rest ps r
    ∧ get_cpp_visibility (⟨name, body⟩ :: rest) = get_cpp_visibility rest
    ∧ get_layout (⟨name, body⟩ :: rest) = get_layout rest
    ∧ get_original_name [⟨("original_name"), some [.litNat 5]⟩] = .panicked
    ∧ get_reference_parameters_and_return [⟨("arg_type_reference"), some [.litStr ("x")]⟩]
        = .value (∅, false) := by
  refine ⟨getRefsLoop_unrelated _ _ _ _ h1 h2, ?_, ?_, by decide, by decide⟩
  · simp [get_cpp_visibility, has_attr, ABAttr.is_ident, h3, h4]
  · simp [get_layout, parse_if_present, ABAttr.is_ident, h5]

/-- C6 witness: the amended statement instantiated at a concrete unknown
tag name. -/
theorem C6_amended_witness :
    getRefsLoop [⟨("wibble"), none⟩] ∅ false = getRefsLoop [] ∅ false
    ∧ get_cpp_visibility [⟨("wibble"), none⟩] = get_cpp_visibility []
    ∧ get_layout [⟨("wibble"), none⟩] = get_layout []
    ∧ get_original_name [⟨("original_name"), some [.litNat 5]⟩] = .panicked
    ∧ get_reference_parameters_and_return [⟨("arg_type_reference"), some [.litStr ("x")]⟩]
        = .value (∅, false) :=
  C6_amended ("wibble") none [] ∅ false (by decide) (by decide) (by decide) (by decide)
    (by decide)

end AutocxxBindgenAnnotations

end Autocxx

namespace Autocxx

/-- A trivial configuration: nothing blocked, nothing demanded, utilities
suppressed, every identifier valid. -/
def cfgTrivial : IncludeCppConfig := ⟨[], [], true, [], [], [], fun _ => true⟩

/-- A configuration whose blocklist contains the single name `C`. -/
def cfgBlockC : IncludeCppConfig := ⟨[("C")], [], true, [], [], [], fun _ => true⟩

/-- Whether a top-level item is a wrapping group (a mod). -/
def Item.isGroup : Item → Bool
  | .mod _ _ => true
  | _ => false

theorem parse_item_foreignMod_eq (cfg : IncludeCppConfig) (ns : Namespace) (st : PState)
    (mc : ParseForeignMod) (fitems : List Nat) :
    parse_item cfg ns st mc (.foreignMod fitems)
      = .value (st, mc.convert_foreign_mod_items fitems, .ok ()) := by
  rw [parse_item]

theorem parse_item_struct_eq (cfg : IncludeCppConfig) (ns : Namespace) (st : PState)
    (mc : ParseForeignMod) (id : String) (fields : List StructField) (attrs : List Attr) :
    parse_item cfg ns st mc (.struct id fields attrs)
      = parse_struct_item cfg ns st mc id fields attrs := by
  rw [parse_item]

theorem parse_item_enum_eq (cfg : IncludeCppConfig) (ns : Namespace) (st : PState)
    (mc : ParseForeignMod) (id : String) (attrs : List Attr) :
    parse_item cfg ns st mc (.enum id attrs) = parse_enum_item cfg ns st mc id attrs := by
  rw [parse_item]

theorem parse_item_impl_eq (cfg : IncludeCppConfig) (ns : Namespace) (st : PState)
    (mc : ParseForeignMod) (p : Nat) :
    parse_item cfg ns st mc (.impl p) = .value (st, mc.convert_impl_items p, .ok ()) := by
  rw [parse_item]

theorem parse_item_use_eq (cfg : IncludeCppConfig) (ns : Namespace) (st : PState)
    (mc : ParseForeignMod) (tree : UseTree) (attrs : List Attr) :
    parse_item cfg ns st mc (.use tree attrs) = parse_use_item ns attrs st mc tree := by
  rw [parse_item]

theorem parse_item_const_eq (cfg : IncludeCppConfig) (ns : Namespace) (st : PState)
    (mc : ParseForeignMod) (id : String) (attrs : List Attr) :
    parse_item cfg ns st mc (.const id attrs)
      = .value ({ st with apis := st.apis ++ [.const (api_name ns id attrs)] },
          mc, .ok ()) := by
  rw [parse_item]

theorem parse_item_type_eq (cfg : IncludeCppConfig) (ns : Namespace) (st : PState)
    (mc : ParseForeignMod) (id : String) (attrs : List Attr) :
    parse_item cfg ns st mc (.type id attrs)
      = .value ({ st with apis := st.apis ++
          [.typedef (api_name ns id attrs) (.typeAlias id) none] }, mc, .ok ()) := by
  rw [parse_item]

theorem parse_item_other_eq (cfg : IncludeCppConfig) (ns : Namespace) (st : PState)
    (mc : ParseForeignMod) :
    parse_item cfg ns st mc .other
      = .value (st, mc, .error ⟨.UnexpectedItemInMod, none⟩) := by
  rw [parse_item]

/-- C1 counterexample: with zero top-level wrappers (an empty item
sequence), `parse_items` does not fail — it succeeds with an empty
collection — contradicting the claim that any outer shape other than
exactly one wrapping group is an immediate whole-pass structural error. -/
theorem C1_counterexample : parse_items cfgTrivial [] = .value (.ok ([], [])) := by
  simp [parse_items, find_items_in_root, cfgTrivial, IncludeCppConfig.exclude_utilities,
    add_apis_from_config, parse_mod_items, parse_mod_items_go, ParseForeignMod.new,
    ParseForeignMod.finished, confirm_all_generate_directives_obeyed,
    IncludeCppConfig.must_generate_list]

/-- C1 (amended): `parse_items` fails immediately with the structural error
`UnexpectedOuterItem` — before any declaration is processed and with no
partial collection — when the first top-level item is not a wrapping
group; but zero top-level items succeed with an empty declaration list,
and when several top-level items are present the contents of the first
content-bearing root group are used and the remaining items are ignored. -/
theorem C1_amended (cfg : IncludeCppConfig) (i : Item) (rest : List Item)
    (inner rest2 : List Item) (h : i.isGroup = false) :
    find_items_in_root (i :: rest) = .value (.error .UnexpectedOuterItem)
    ∧ parse_items cfg (i :: rest) = .value (.error .UnexpectedOuterItem)
    ∧ find_items_in_root ([] : List Item) = .value (.ok [])
    ∧ find_items_in_root (.mod ("root") (some inner) :: rest2) = .value (.ok inner) := by
  have hf : find_items_in_root (i :: rest) = .value (.error .UnexpectedOuterItem) := by
    cases i <;> simp_all [find_items_in_root, Item.isGroup]
  exact ⟨hf, by simp [parse_items, hf], rfl, by simp [find_items_in_root]⟩

/-- C1 witness: the amended statement at a concrete non-group item and a
concrete multi-item sequence. -/
theorem C1_amended_witness :
    find_items_in_root [Item.other] = .value (.error .UnexpectedOuterItem)
    ∧ parse_items cfgTrivial [Item.other] = .value (.error .UnexpectedOuterItem)
    ∧ find_items_in_root ([] : List Item) = .value (.ok [])
    ∧ find_items_in_root (.mod ("root") (some [.const ("k") []]) :: [Item.other])
        = .value (.ok [.const ("k") []]) :=
  C1_amended cfgTrivial .other [] [.const ("k") []] [Item.other] (by decide)

end Autocxx


namespace Autocxx

theorem parse_use_loop_path (ns : Namespace) (attrs : List Attr) (st : PState)
    (seg : String) (rest : UseTree) (segs : List String) :
    parse_use_loop ns attrs st (.path seg rest) segs
      = parse_use_loop ns attrs st rest (segs ++ [seg]) := rfl

theorem parse_use_loop_rename (ns : Namespace) (attrs : List Attr) (st : PState)
    (oldId newId : String) (restSegs : List String) :
    parse_use_loop ns attrs st (.rename oldId newId) (("self") :: ("super") :: restSegs)
      = (if (⟨ns, newId⟩ : QualifiedName) = resolve_old_tyname ns restSegs oldId then
          .value (st, .error ⟨.InfinitelyRecursiveTypedef ⟨ns, newId⟩, some (.item newId)⟩)
        else
          .value ({ st with apis := st.apis ++
            [.typedef (api_name ns newId attrs) (.useAlias restSegs oldId newId)
              (some (resolve_old_tyname ns restSegs oldId))] }, .ok ())) := rfl

/-- C2 counterexample: a constant whose qualified name `C` is on the
blocklist is still pushed and still appears in the final API collection —
contradicting the claim that every candidate entry kind is
blocklist-filtered. -/
theorem C2_counterexample :
    parse_items cfgBlockC [.mod ("root") (some [.const ("C") []])]
      = .value (.ok ([UnanalyzedApi.const ⟨⟨⟨[]⟩, ("C")⟩, none⟩], [])) := by
  simp [parse_items, find_items_in_root, cfgBlockC, IncludeCppConfig.exclude_utilities,
    add_apis_from_config, parse_mod_items, parse_mod_items_go, parse_item,
    ParseForeignMod.new, ParseForeignMod.finished,
    confirm_all_generate_directives_obeyed, IncludeCppConfig.must_generate_list,
    api_name, get_bindgen_original_name_annotation, Namespace.new, apiNames]

/-- C2 (amended): only aggregate-derived candidates (ForwardDeclaration or
Struct) and Enum candidates are dropped when their qualified name matches
a blocklist pattern; Const candidates and Typedef candidates — from a
direct alias or from a renaming re-export — are appended to the
collection regardless of the blocklist. -/
theorem C2_amended (cfg : IncludeCppConfig) (ns : Namespace) (st : PState)
    (mc : ParseForeignMod) (id oldId : String) (attrs : List Attr)
    (fields : List StructField)
    (hval : cfg.validIdent id = true)
    (hbl : cfg.is_on_blocklist (QualifiedName.to_cpp_name ⟨ns, id⟩) = true)
    (hvt : id.endsWith ("__bindgen_vtable") = false)
    (hrt : (ns.isEmpty && cfg.is_rust_type id) = false)
    (hfwd : spot_forward_declaration fields = true)
    (hne : (⟨ns, id⟩ : QualifiedName) ≠ resolve_old_tyname ns [] oldId) :
    parse_item cfg ns st mc (.enum id attrs) = .value (st, mc, .ok ())
    ∧ parse_item cfg ns st mc (.struct id fields attrs) = .value (st, mc, .ok ())
    ∧ parse_item cfg ns st mc (.const id attrs)
        = .value ({ st with apis := st.apis ++ [.const (api_name ns id attrs)] },
            mc, .ok ())
    ∧ parse_item cfg ns st mc (.type id attrs)
        = .value ({ st with apis := st.apis ++
            [.typedef (api_name ns id attrs) (.typeAlias id) none] }, mc, .ok ())
    ∧ parse_item cfg ns st mc
        (.use (.path ("self") (.path ("super") (.rename oldId id))) attrs)
        = .value ({ st with apis := st.apis ++
            [.typedef (api_name ns id attrs) (.useAlias [] oldId id)
              (some (resolve_old_tyname ns [] oldId))] }, mc, .ok ()) := by
  refine ⟨?_, ?_, parse_item_const_eq _ _ _ _ _ _, parse_item_type_eq _ _ _ _ _ _, ?_⟩
  · rw [parse_item_enum_eq]
    simp [parse_enum_item, api_name_qualified, hval, hbl, UnanalyzedApi.name,
      UnanalyzedApi.nameInfo, api_name]
  · rw [parse_item_struct_eq]
    simp [parse_struct_item, hvt, api_name_qualified, hval, hrt, hfwd, hbl,
      UnanalyzedApi.name, UnanalyzedApi.nameInfo, api_name]
  · rw [parse_item_use_eq]
    simp only [parse_use_item, parse_use_loop_path, List.nil_append, List.cons_append,
      List.singleton_append]
    rw [parse_use_loop_rename, if_neg hne]

/-- C2 witness: the amended statement at concrete inputs with the
blocklisted name `C`. -/
theorem C2_amended_witness :
    parse_item cfgBlockC Namespace.new ⟨[], []⟩ (ParseForeignMod.new Namespace.new)
        (.enum ("C") []) = .value (⟨[], []⟩, ParseForeignMod.new Namespace.new, .ok ())
    ∧ parse_item cfgBlockC Namespace.new ⟨[], []⟩ (ParseForeignMod.new Namespace.new)
        (.struct ("C") [⟨some ("_unused")⟩] [])
        = .value (⟨[], []⟩, ParseForeignMod.new Namespace.new, .ok ())
    ∧ parse_item cfgBlockC Namespace.new ⟨[], []⟩ (ParseForeignMod.new Namespace.new)
        (.const ("C") [])
        = .value (⟨[.const (api_name Namespace.new ("C") [])], []⟩,
            ParseForeignMod.new Namespace.new, .ok ())
    ∧ parse_item cfgBlockC Namespace.new ⟨[], []⟩ (ParseForeignMod.new Namespace.new)
        (.type ("C") [])
        = .value (⟨[.typedef (api_name Namespace.new ("C") []) (.typeAlias ("C")) none], []⟩,
            ParseForeignMod.new Namespace.new, .ok ())
    ∧ parse_item cfgBlockC Namespace.new ⟨[], []⟩ (ParseForeignMod.new Namespace.new)
        (.use (.path ("self") (.path ("super") (.rename ("D") ("C")))) [])
        = .value (⟨[.typedef (api_name Namespace.new ("C") []) (.useAlias [] ("D") ("C"))
              (some (resolve_old_tyname Namespace.new [] ("D")))], []⟩,
            ParseForeignMod.new Namespace.new, .ok ()) :=
  C2_amended cfgBlockC Namespace.new ⟨[], []⟩ (ParseForeignMod.new Namespace.new)
    ("C") ("D") [] [⟨some ("_unused")⟩] (by decide) (by decide) (by decide) (by decide)
    (by decide) (by decide)

end Autocxx

namespace Autocxx

/-- A configuration declaring `S` as an externally-implemented opaque rust
type. -/
def cfgRustS : IncludeCppConfig := ⟨[], [], true, [], [], [("S")], fun _ => true⟩

/-- C3 counterexample: an aggregate in the root namespace whose single field
is the forward-declaration sentinel, but whose name is configured as an
externally-implemented opaque rust type, produces no entry at all — the
opaque-rust-type discard takes precedence over the forward-declaration
check, so no ForwardDeclaration is emitted, contradicting the claimed rule
order. -/
theorem C3_counterexample :
    parse_item cfgRustS Namespace.new ⟨[], []⟩ (ParseForeignMod.new Namespace.new)
        (.struct ("S") [⟨some ("_unused")⟩] [])
      = .value (⟨[], []⟩, ParseForeignMod.new Namespace.new, .ok ()) := by
  rw [parse_item_struct_eq]
  rfl

/-- C3 (amended): for an aggregate whose field list is the single
forward-declaration sentinel field (identifier not ending in the
dispatch-table suffix, valid, not blocklisted), the builder emits a
ForwardDeclaration and never a Struct — provided the declaration is not a
configured opaque rust type in the root namespace; in that case the
opaque-rust-type discard takes precedence and no entry is emitted. -/
theorem C3_amended (cfg : IncludeCppConfig) (ns : Namespace) (st : PState)
    (mc : ParseForeignMod) (id : String) (attrs : List Attr)
    (hval : cfg.validIdent id = true)
    (hvt : id.endsWith ("__bindgen_vtable") = false)
    (hbl : cfg.is_on_blocklist (QualifiedName.to_cpp_name ⟨ns, id⟩) = false) :
    ((ns.isEmpty && cfg.is_rust_type id) = false →
        parse_item cfg ns st mc (.struct id [⟨some ("_unused")⟩] attrs)
          = .value ({ st with apis := st.apis ++
              [.forwardDeclaration (api_name ns id attrs)] }, mc, .ok ()))
    ∧ ((ns.isEmpty && cfg.is_rust_type id) = true →
        parse_item cfg ns st mc (.struct id [⟨some ("_unused")⟩] attrs)
          = .value (st, mc, .ok ())) := by
  constructor
  · intro hrt
    rw [parse_item_struct_eq]
    simp [parse_struct_item, hvt, api_name_qualified, hval, hrt, hbl,
      spot_forward_declaration, UnanalyzedApi.name, UnanalyzedApi.nameInfo, api_name]
  · intro hrt
    rw [parse_item_struct_eq]
    simp [parse_struct_item, hvt, api_name_qualified, hval, hrt]

/-- C3 witness: the amended statement at concrete inputs — a plain
configuration yields the ForwardDeclaration; the rust-type configuration
yields no entry. -/
theorem C3_amended_witness :
    parse_item cfgTrivial Namespace.new ⟨[], []⟩ (ParseForeignMod.new Namespace.new)
        (.struct ("S") [⟨some ("_unused")⟩] [])
        = .value (⟨[.forwardDeclaration (api_name Namespace.new ("S") [])], []⟩,
            ParseForeignMod.new Namespace.new, .ok ())
    ∧ parse_item cfgRustS Namespace.new ⟨[], []⟩ (ParseForeignMod.new Namespace.new)
        (.struct ("S") [⟨some ("_unused")⟩] [])
        = .value (⟨[], []⟩, ParseForeignMod.new Namespace.new, .ok ()) :=
  ⟨(C3_amended cfgTrivial Namespace.new ⟨[], []⟩ (ParseForeignMod.new Namespace.new)
      ("S") [] (by decide) (by decide) (by decide)).1 (by decide),
   (C3_amended cfgRustS Namespace.new ⟨[], []⟩ (ParseForeignMod.new Namespace.new)
      ("S") [] (by decide) (by decide) (by decide)).2 (by decide)⟩

/-- The namespace `a`, as in the re-export scenario. -/
def nsA : Namespace := ⟨[("a")]⟩

/-- C4 counterexample: `use self::super::foo as foo` inside namespace `a`
does not fail with the self-referential-alias error — the resolved old
name is `foo` in the root namespace (the parent of `a`), which differs
from `a::foo`, so a Typedef entry is emitted. -/
theorem C4_counterexample :
    parse_item cfgTrivial nsA ⟨[], []⟩ (ParseForeignMod.new nsA)
        (.use (.path ("self") (.path ("super") (.rename ("foo") ("foo")))) [])
      = .value (⟨[.typedef ⟨⟨nsA, ("foo")⟩, none⟩ (.useAlias [] ("foo") ("foo"))
            (some ⟨⟨[]⟩, ("foo")⟩)], []⟩, ParseForeignMod.new nsA, .ok ()) := by
  rw [parse_item_use_eq]
  rfl

/-- C4 (amended): `use self::super::foo as bar` inside namespace `a` yields
exactly one Typedef entry named `a::bar` whose recorded old name is `foo`
in the root namespace — the stripped path is resolved relative to the
parent of `a`, not inside `a`; the variant renaming `foo` to `foo` also
succeeds (old and new names differ), and the self-referential error fires
exactly when the resolved old name equals the new name, as for
`use self::super::a::foo as foo` inside `a`. -/
theorem C4_amended :
    parse_item cfgTrivial nsA ⟨[], []⟩ (ParseForeignMod.new nsA)
        (.use (.path ("self") (.path ("super") (.rename ("foo") ("bar")))) [])
      = .value (⟨[.typedef ⟨⟨nsA, ("bar")⟩, none⟩ (.useAlias [] ("foo") ("bar"))
            (some ⟨⟨[]⟩, ("foo")⟩)], []⟩, ParseForeignMod.new nsA, .ok ())
    ∧ parse_item cfgTrivial nsA ⟨[], []⟩ (ParseForeignMod.new nsA)
        (.use (.path ("self") (.path ("super") (.rename ("foo") ("foo")))) [])
      = .value (⟨[.typedef ⟨⟨nsA, ("foo")⟩, none⟩ (.useAlias [] ("foo") ("foo"))
            (some ⟨⟨[]⟩, ("foo")⟩)], []⟩, ParseForeignMod.new nsA, .ok ())
    ∧ parse_item cfgTrivial nsA ⟨[], []⟩ (ParseForeignMod.new nsA)
        (.use (.path ("self") (.path ("super") (.path ("a") (.rename ("foo") ("foo"))))) [])
      = .value (⟨[], []⟩, ParseForeignMod.new nsA,
          .error ⟨.InfinitelyRecursiveTypedef ⟨nsA, ("foo")⟩, some (.item ("foo"))⟩) := by
  refine ⟨?_, ?_, ?_⟩ <;> (rw [parse_item_use_eq]; rfl)

end Autocxx

namespace Autocxx

/-- C5 counterexample: a renaming re-export not prefixed `self::super`
(here `use foo as bar`, whose segment list is empty) aborts the whole
process by assertion panic — it is not converted into a caught
per-declaration error, and the walker does not continue. -/
theorem C5_counterexample :
    parse_mod_items cfgTrivial nsA ⟨[], []⟩ [.use (.rename ("foo") ("bar")) []]
      = .panicked := by
  simp [parse_mod_items, parse_mod_items_go, parse_item, parse_use_item, parse_use_loop,
    ParseForeignMod.new]

/-- C5 (amended): a re-export whose shape is neither the bare root-sentinel
form nor a rename (a non-root name, a glob, a group) fails with a
per-declaration error identifying the last path segment observed (or
none), and such a failure is recorded as a diagnostic while the walker
continues with sibling declarations; but a rename not prefixed
`self::super` aborts the whole process by assertion panic rather than by
a recoverable error. -/
theorem C5_amended (ns : Namespace) (attrs : List Attr) (st : PState)
    (id oldId newId : String) (segs : List String)
    (hid : id ≠ ("root")) :
    parse_use_loop ns attrs st (.name id) segs
        = .value (st, .error ⟨.UnexpectedUseStatement segs.getLast?, none⟩)
    ∧ parse_use_loop ns attrs st .glob segs
        = .value (st, .error ⟨.UnexpectedUseStatement segs.getLast?, none⟩)
    ∧ parse_use_loop ns attrs st .group segs
        = .value (st, .error ⟨.UnexpectedUseStatement segs.getLast?, none⟩)
    ∧ parse_use_loop ns attrs st (.rename oldId newId) [] = .panicked
    ∧ parse_mod_items cfgTrivial nsA ⟨[], []⟩ [.use .glob [], .const ("k") []]
        = .value ⟨[.const ⟨⟨nsA, ("k")⟩, none⟩],
            [⟨nsA, ⟨.UnexpectedUseStatement none, none⟩⟩]⟩ := by
  refine ⟨?_, rfl, rfl, rfl, ?_⟩
  · simp [parse_use_loop, hid]
  · simp [parse_mod_items, parse_mod_items_go, parse_item, parse_use_item, parse_use_loop,
      ParseForeignMod.new, ParseForeignMod.finished, api_name,
      get_bindgen_original_name_annotation]

/-- C5 witness: the amended statement at a concrete non-root name. -/
theorem C5_amended_witness :
    parse_use_loop nsA [] ⟨[], []⟩ (.name ("x")) [("p")]
        = .value (⟨[], []⟩, .error ⟨.UnexpectedUseStatement (some ("p")), none⟩)
    ∧ parse_use_loop nsA [] ⟨[], []⟩ .glob [("p")]
        = .value (⟨[], []⟩, .error ⟨.UnexpectedUseStatement (some ("p")), none⟩)
    ∧ parse_use_loop nsA [] ⟨[], []⟩ .group [("p")]
        = .value (⟨[], []⟩, .error ⟨.UnexpectedUseStatement (some ("p")), none⟩)
    ∧ parse_use_loop nsA [] ⟨[], []⟩ (.rename ("foo") ("bar")) [] = .panicked
    ∧ parse_mod_items cfgTrivial nsA ⟨[], []⟩ [.use .glob [], .const ("k") []]
        = .value ⟨[.const ⟨⟨nsA, ("k")⟩, none⟩],
            [⟨nsA, ⟨.UnexpectedUseStatement none, none⟩⟩]⟩ :=
  C5_amended nsA [] ⟨[], []⟩ ("x") ("foo") ("bar") [("p")] (by decide)

end Autocxx

namespace Autocxx

theorem confirm_ok_mem (cfg : IncludeCppConfig) (apis : List UnanalyzedApi) (q : String)
    (hok : confirm_all_generate_directives_obeyed cfg apis = .ok ())
    (hq : q ∈ cfg.must_generate_list) : q ∈ apiNames apis := by
  unfold confirm_all_generate_directives_obeyed at hok
  split at hok
  · exact absurd hok (by simp)
  · rename_i heq
    have hnone := List.find?_eq_none.mp heq q hq
    simp at hnone
    exact hnone

theorem parse_items_tail_inv (cfg : IncludeCppConfig) (inner : List Item) (st0 : PState)
    (apis : List UnanalyzedApi) (dgs : List Diag)
    (h : (match parse_mod_items cfg Namespace.new st0 inner with
          | Panics.panicked => Panics.panicked
          | Panics.value st =>
            match confirm_all_generate_directives_obeyed cfg st.apis with
            | Except.error e => Panics.value (Except.error e)
            | Except.ok _ => Panics.value (Except.ok (st.apis, st.diags)))
        = Panics.value (Except.ok (apis, dgs))) :
    confirm_all_generate_directives_obeyed cfg apis = .ok () := by
  split at h
  · exact absurd h (by simp)
  · split at h
    · exact absurd h (by simp)
    · simp only [Panics.value.injEq, Except.ok.injEq, Prod.mk.injEq] at h
      obtain ⟨h1, h2⟩ := h
      subst h1
      assumption

theorem parse_items_ok_inv (cfg : IncludeCppConfig) (items : List Item)
    (apis : List UnanalyzedApi) (dgs : List Diag)
    (hrun : parse_items cfg items = .value (.ok (apis, dgs))) :
    confirm_all_generate_directives_obeyed cfg apis = .ok () := by
  unfold parse_items at hrun
  split at hrun
  · exact absurd hrun (by simp)
  · exact absurd hrun (by simp)
  · split at hrun
    · simp only [] at hrun
      exact parse_items_tail_inv _ _ _ _ _ hrun
    · simp only [] at hrun
      exact parse_items_tail_inv _ _ _ _ _ hrun

/-- A configuration demanding generation of `S` while also blocklisting
`S`. -/
def cfgQ : IncludeCppConfig := ⟨[("S")], [("S")], true, [], [], [], fun _ => true⟩

/-- A configuration demanding generation of the utility entry name, with
utility injection enabled. -/
def cfgMG : IncludeCppConfig := ⟨[], [("make_string")], false, [], [], [], fun _ => true⟩

/-- C7: every name configuration marks as must-generate is present among
the qualified names of the final collection whenever the pass succeeds —
equivalently, a missing name makes the pass fail with the
missing-directive error; in particular, when the walked candidate for the
demanded name `S` is dropped by a blocklist pattern matching `S`, the
whole pass fails with `DidNotGenerateAnything S`. -/
theorem C7_must_generate (cfg : IncludeCppConfig) (items : List Item)
    (apis : List UnanalyzedApi) (dgs : List Diag) (q : String)
    (hrun : parse_items cfg items = .value (.ok (apis, dgs)))
    (hq : q ∈ cfg.must_generate_list) :
    q ∈ apiNames apis
    ∧ parse_items cfgQ [.mod ("root") (some [.struct ("S") [⟨some ("x")⟩] []])]
        = .value (.error (.DidNotGenerateAnything ("S"))) := by
  refine ⟨confirm_ok_mem cfg apis q (parse_items_ok_inv cfg items apis dgs hrun) hq, ?_⟩
  have hS : parse_item cfgQ Namespace.new ⟨[], []⟩ (ParseForeignMod.new Namespace.new)
      (.struct ("S") [⟨some ("x")⟩] [])
      = .value (⟨[], []⟩, ParseForeignMod.new Namespace.new, .ok ()) := by
    rw [parse_item_struct_eq]
    rfl
  have hex : cfgQ.exclude_utilities = true := rfl
  have hadd : add_apis_from_config cfgQ [] = [] := rfl
  have hmg : cfgQ.must_generate_list = [("S")] := rfl
  have hpf : (ParseForeignMod.new Namespace.new).pendingFns = [] := rfl
  simp [parse_items, find_items_in_root, hex, hadd, parse_mod_items, parse_mod_items_go,
    hS, hpf, ParseForeignMod.finished,
    confirm_all_generate_directives_obeyed, hmg, apiNames]

/-- C7 witness: a successful pass whose collection contains the demanded
utility name, plus the blocklist scenario. -/
theorem C7_must_generate_witness :
    ("make_string") ∈ apiNames [.utility ⟨⟨⟨[]⟩, ("make_string")⟩, none⟩]
    ∧ parse_items cfgQ [.mod ("root") (some [.struct ("S") [⟨some ("x")⟩] []])]
        = .value (.error (.DidNotGenerateAnything ("S"))) :=
  C7_must_generate cfgMG [] [.utility ⟨⟨⟨[]⟩, ("make_string")⟩, none⟩] [] ("make_string")
    (by
      have hname : QualifiedName.to_cpp_name ⟨⟨[]⟩, ("make_string")⟩ = ("make_string") :=
        rfl
      simp [parse_items, find_items_in_root, cfgMG, IncludeCppConfig.exclude_utilities,
        add_apis_from_config, generate_utilities, parse_mod_items, parse_mod_items_go,
        ParseForeignMod.new, ParseForeignMod.finished,
        confirm_all_generate_directives_obeyed, IncludeCppConfig.must_generate_list,
        apiNames, UnanalyzedApi.name, UnanalyzedApi.nameInfo, hname, Namespace.new])
    (by decide)

end Autocxx

namespace Autocxx

/-- C9: the forward-declaration sentinel test is satisfied by any field —
for an aggregate with at least one field named `_unused`, in any position
and regardless of how many other fields are present,
`spot_forward_declaration` returns true and the builder (for a valid,
non-dispatch-table, non-opaque-rust-type, non-blocklisted declaration)
emits a ForwardDeclaration and never a Struct; exactly one sentinel field
is not required. -/
theorem C9_sentinel_any_field (cfg : IncludeCppConfig) (ns : Namespace) (st : PState)
    (mc : ParseForeignMod) (id : String) (attrs : List Attr) (f : StructField)
    (pre post : List StructField)
    (hf : f.ident = some ("_unused"))
    (hval : cfg.validIdent id = true)
    (hvt : id.endsWith ("__bindgen_vtable") = false)
    (hrt : (ns.isEmpty && cfg.is_rust_type id) = false)
    (hbl : cfg.is_on_blocklist (QualifiedName.to_cpp_name ⟨ns, id⟩) = false) :
    spot_forward_declaration (pre ++ f :: post) = true
    ∧ parse_item cfg ns st mc (.struct id (pre ++ f :: post) attrs)
        = .value ({ st with apis := st.apis ++
            [.forwardDeclaration (api_name ns id attrs)] }, mc, .ok ()) := by
  have hspot : spot_forward_declaration (pre ++ f :: post) = true := by
    simp [spot_forward_declaration, List.filterMap_append, List.any_append,
      List.filterMap_cons, hf]
  refine ⟨hspot, ?_⟩
  rw [parse_item_struct_eq]
  simp [parse_struct_item, hvt, api_name_qualified, hval, hrt, hspot, hbl,
    UnanalyzedApi.name, UnanalyzedApi.nameInfo, api_name]

/-- C9 witness: a three-field aggregate whose middle field is the sentinel
is spotted and classified as a ForwardDeclaration. -/
theorem C9_sentinel_any_field_witness :
    spot_forward_declaration ([⟨some ("a")⟩] ++ ⟨some ("_unused")⟩ :: [⟨none⟩, ⟨some ("b")⟩])
        = true
    ∧ parse_item cfgTrivial Namespace.new ⟨[], []⟩ (ParseForeignMod.new Namespace.new)
        (.struct ("T") ([⟨some ("a")⟩] ++ ⟨some ("_unused")⟩ :: [⟨none⟩, ⟨some ("b")⟩]) [])
        = .value (⟨[.forwardDeclaration (api_name Namespace.new ("T") [])], []⟩,
            ParseForeignMod.new Namespace.new, .ok ()) :=
  C9_sentinel_any_field cfgTrivial Namespace.new ⟨[], []⟩ (ParseForeignMod.new Namespace.new)
    ("T") [] ⟨some ("_unused")⟩ [⟨some ("a")⟩] [⟨none⟩, ⟨some ("b")⟩]
    (by decide) (by decide) (by decide) (by decide) (by decide)

end Autocxx

namespace Autocxx

theorem parse_use_loop_error_st (ns : Namespace) (attrs : List Attr) (st : PState)
    (tree : UseTree) (segs : List String) (st2 : PState) (e : ConvertErrorWithContext)
    (h : parse_use_loop ns attrs st tree segs = .value (st2, .error e)) : st2 = st := by
  induction tree generalizing segs with
  | path seg rest ih =>
    rw [parse_use_loop_path] at h
    exact ih _ h
  | name id =>
    simp only [parse_use_loop] at h
    split at h <;> simp_all
  | rename oldId newId =>
    simp only [parse_use_loop] at h
    repeat' split at h
    all_goals simp_all
  | glob => simp_all [parse_use_loop]
  | group => simp_all [parse_use_loop]

theorem parse_struct_item_error_st (cfg : IncludeCppConfig) (ns : Namespace) (st : PState)
    (mc : ParseForeignMod) (id : String) (fields : List StructField) (attrs : List Attr)
    (st2 : PState) (mc2 : ParseForeignMod) (e : ConvertErrorWithContext)
    (h : parse_struct_item cfg ns st mc id fields attrs = .value (st2, mc2, .error e)) :
    st2 = st := by
  unfold parse_struct_item at h
  repeat' split at h
  all_goals simp_all

theorem parse_enum_item_error_st (cfg : IncludeCppConfig) (ns : Namespace) (st : PState)
    (mc : ParseForeignMod) (id : String) (attrs : List Attr)
    (st2 : PState) (mc2 : ParseForeignMod) (e : ConvertErrorWithContext)
    (h : parse_enum_item cfg ns st mc id attrs = .value (st2, mc2, .error e)) :
    st2 = st := by
  unfold parse_enum_item at h
  split at h
  · simp_all
  · simp only [] at h
    split at h <;> simp_all

/-- C10: per-declaration error atomicity — whenever `parse_item` returns an
error for a declaration (invalid identifier, self-referential re-export,
unexpected use-statement shape, unexpected item kind), the running API
entry collection is exactly as it was before that declaration; no partial
entry for the failing declaration is ever appended. -/
theorem C10_error_atomicity (cfg : IncludeCppConfig) (ns : Namespace) (st : PState)
    (mc : ParseForeignMod) (item : Item) (st2 : PState) (mc2 : ParseForeignMod)
    (e : ConvertErrorWithContext)
    (h : parse_item cfg ns st mc item = .value (st2, mc2, .error e)) :
    st2.apis = st.apis := by
  cases item with
  | foreignMod fitems =>
    rw [parse_item_foreignMod_eq] at h
    simp_all
  | struct id fields attrs =>
    rw [parse_item_struct_eq] at h
    rw [parse_struct_item_error_st cfg ns st mc id fields attrs st2 mc2 e h]
  | enum id attrs =>
    rw [parse_item_enum_eq] at h
    rw [parse_enum_item_error_st cfg ns st mc id attrs st2 mc2 e h]
  | impl p =>
    rw [parse_item_impl_eq] at h
    simp_all
  | mod id content =>
    cases content with
    | none =>
      simp only [parse_item] at h
      simp_all
    | some items =>
      simp only [parse_item] at h
      split at h <;> simp_all
  | use tree attrs =>
    rw [parse_item_use_eq] at h
    unfold parse_use_item at h
    split at h
    · simp_all
    · rename_i st3 res heq
      simp only [Panics.value.injEq, Prod.mk.injEq] at h
      obtain ⟨h1, h2, h3⟩ := h
      rw [← h1]
      rw [parse_use_loop_error_st ns attrs st tree [] st3 e (by rw [h3] at heq; exact heq)]
  | const id attrs =>
    rw [parse_item_const_eq] at h
    simp_all
  | type id attrs =>
    rw [parse_item_type_eq] at h
    simp_all
  | other =>
    rw [parse_item_other_eq] at h
    simp_all

/-- C10 witness: a failing declaration (an unexpected item kind) with a
nonempty running collection leaves the collection unchanged. -/
theorem C10_error_atomicity_witness :
    parse_item cfgTrivial Namespace.new ⟨[.utility ⟨⟨⟨[]⟩, ("u")⟩, none⟩], []⟩
        (ParseForeignMod.new Namespace.new) .other
      = .value (⟨[.utility ⟨⟨⟨[]⟩, ("u")⟩, none⟩], []⟩, ParseForeignMod.new Namespace.new,
          .error ⟨.UnexpectedItemInMod, none⟩)
    ∧ PState.apis ⟨[.utility ⟨⟨⟨[]⟩, ("u")⟩, none⟩], []⟩
        = PState.apis ⟨[.utility ⟨⟨⟨[]⟩, ("u")⟩, none⟩], []⟩ :=
  ⟨parse_item_other_eq cfgTrivial Namespace.new ⟨[.utility ⟨⟨⟨[]⟩, ("u")⟩, none⟩], []⟩
      (ParseForeignMod.new Namespace.new),
   C10_error_atomicity cfgTrivial Namespace.new ⟨[.utility ⟨⟨⟨[]⟩, ("u")⟩, none⟩], []⟩
      (ParseForeignMod.new Namespace.new) .other _ _ _
      (parse_item_other_eq cfgTrivial Namespace.new ⟨[.utility ⟨⟨⟨[]⟩, ("u")⟩, none⟩], []⟩
        (ParseForeignMod.new Namespace.new))⟩

end Autocxx
